import Mathlib

/-!
Verification of the OpenARK hand-detection pipeline (`Hand.cpp`, named
`src/unnamed/part_000` here, and `src/HandClassifier.cpp`) against its
natural-language specification.

Conventions of the shallow embedding:
* C++ `double` values are modelled as exact rationals `ℚ` (idealised reals);
  the one place where IEEE special values are the point of the claim (the
  sanitization pass) uses the dedicated type `DVal` that carries NaN and
  the two infinities explicitly.
* Geometry primitives implemented outside the two source files
  (`util::euclideanDistance`, `util::contourCurvature`,
  `util::averageAroundPoint`, `cv::contourArea`, ... ) are passed in as
  function parameters: the theorems hold for every instantiation of these
  external primitives, and counterexamples instantiate them concretely.
* `cv::Point` is `(x, y) : ℤ × ℤ` (`y` is the image row), `cv::Vec3f` is
  `(x, y, z) : ℚ × ℚ × ℚ`.
-/

/-- Pixel coordinate, `(x, y)` like `cv::Point`; `y` is the image row. -/
abbrev IJ : Type := ℤ × ℤ

/-- World coordinate `(x, y, z)` like `cv::Vec3f`. -/
abbrev V3 : Type := ℚ × ℚ × ℚ

/-- The `y` component (`v[1]`) of a 3D sample. -/
def v3y (v : V3) : ℚ := v.2.1

/-- C++ `(int)` cast of a `double`: truncation toward zero. -/
def cppTrunc (q : ℚ) : ℤ := if 0 ≤ q then ⌊q⌋ else -⌊-q⌋

/-! ## SVMHandClassifier (`src/HandClassifier.cpp`, lines 198-465) -/

/-- The distinguished error thrown by `SVMHandClassifier::classify` when the
classifier is untrained (`ClassifierNotTrainedException`). -/
inductive ClassifierError where
  | notTrained : ClassifierError
deriving DecidableEq

/-- Number of bucketed SVMs in the ensemble.  `NUM_SVMS` is declared in the
header (not among the given sources); its value 4 is read off
`DEFAULT_HYPERPARAMS`, declared in the source with `5 * NUM_SVMS` entries
and exactly 4 rows of 5 present (`src/HandClassifier.cpp` lines 200-207). -/
def NUM_SVMS : ℤ := 4

/-- `SVMHandClassifier::getSVMIdx(int num_fingers)`:
`std::min(num_fingers - 1, NUM_SVMS - 1)`. -/
def getSVMIdxOfFingers (numFingers : ℤ) : ℤ := min (numFingers - 1) (NUM_SVMS - 1)

/-- `SVMHandClassifier::getSVMIdx(const std::vector<double> & features)`:
bucket selected from the leading finger-count element. -/
def getSVMIdx (features : List ℚ) : ℤ := getSVMIdxOfFingers (cppTrunc (features.headD 0))

/-- `SVMHandClassifier::classify` (`src/HandClassifier.cpp` lines 432-456).
`maxFeatures` stands for the header constant `MAX_FEATURES` and
`predict idx sample` for `svm[idx]->predict(samples)` (the external trained
OpenCV model, a pure function of its input).  Determinism of `classify` for a
fixed feature vector is inherent to this functional embedding: the C++ method
is `const` and calls only `predict` on read-only state. -/
def classify (trained : Bool) (maxFeatures : ℕ) (predict : ℤ → List ℚ → ℚ)
    (features : List ℚ) : Except ClassifierError ℚ :=
  if ¬ trained then Except.error ClassifierError.notTrained
  else if features.length = 0 then Except.ok 0
  else
    let nFeat := min features.length maxFeatures
    let svmIdx := getSVMIdx features
    let sample := (features.drop 1).take (nFeat - 1)
    let result := predict svmIdx sample
    Except.ok (max (min 1 result) 0)

/-! ## Sanitization pass (`src/HandClassifier.cpp`, lines 149-156)

The sanitization loop is the one fragment whose meaning hinges on IEEE
special values, so it is embedded over a value type carrying NaN and the
infinities explicitly. -/

/-- Model of a C++ `double` with the IEEE special values that matter to the
sanitization pass: NaN, plus/minus infinity, or a finite value. -/
inductive DVal where
  | nan : DVal
  | pinf : DVal
  | ninf : DVal
  | fin : ℚ → DVal
deriving DecidableEq

/-- Exact value of `FLT_MAX`, the sentinel of the sanitization pass:
`(2 - 2 ^ (-23)) * 2 ^ 127 = 2 ^ 128 - 2 ^ 104`, written as a numeral. -/
def FLT_MAX_Q : ℚ := 340282346638528859811704183484516925440

/-- C `isnan`: true only on NaN (infinities are not NaN). -/
def isnanD : DVal → Bool
  | DVal.nan => true
  | _ => false

/-- IEEE comparison `x >= FLT_MAX`: false on NaN and on minus infinity, true
on plus infinity, the exact comparison on finite values. -/
def geFltMax : DVal → Bool
  | DVal.nan => false
  | DVal.pinf => true
  | DVal.ninf => false
  | DVal.fin q => decide (FLT_MAX_Q ≤ q)

/-- Body of the sanitization loop (`src/HandClassifier.cpp` lines 150-155):
`if (isnan(result[i])) result[i] = 1.0; else if (result[i] >= FLT_MAX)
result[i] = 100.0;`. -/
def sanitizeFeature (x : DVal) : DVal :=
  if isnanD x then DVal.fin 1
  else if geFltMax x then DVal.fin 100
  else x

/-- The sanitization pass applied to the whole feature vector. -/
def sanitizeFeatures (v : List DVal) : List DVal := v.map sanitizeFeature

/-- Predicate of the claim: the entry is a finite value below the sentinel. -/
def isFiniteBelowSentinel : DVal → Bool
  | DVal.fin q => decide (q < FLT_MAX_Q)
  | _ => false

/-! ## Feature extractor (`src/HandClassifier.cpp`, lines 14-196)

External geometry primitives (implemented in `Util.cpp` / OpenCV, outside the
given sources) are abstracted as the function fields of `GeomOps`; the depth
window is baked into `avgAround`.  Division in `ℚ` is total with `x / 0 = 0`
where the C++ `double` division would produce an IEEE special value. -/

/-- External numeric and geometric primitives used by
`HandClassifier::extractHandFeatures`. -/
structure GeomOps where
  /-- `sqrt` / `sqrtf` from libm. -/
  sqrtQ : ℚ → ℚ
  /-- `util::euclideanDistance` on 3D samples. -/
  dist3 : V3 → V3 → ℚ
  /-- `cv::contourArea`. -/
  contourArea : List IJ → ℚ
  /-- `cv::arcLength` with `closed = true`. -/
  arcLength : List IJ → ℚ
  /-- `util::diameter`: the diameter of a point list together with the two
  indices `pa`, `pb` realizing it. -/
  diameter : List IJ → ℚ × ℕ × ℕ
  /-- `util::averageAroundPoint` over the depth window of the evaluation. -/
  avgAround : IJ → V3
  /-- `util::angleBetween3DVec`. -/
  angle3D : V3 → V3 → V3 → ℚ
  /-- `util::angleBetweenPoints`. -/
  angleIJ : IJ → IJ → IJ → ℚ
  /-- `util::pointToAngle`. -/
  pointToAngle : IJ → ℚ
  /-- The constant `PI`. -/
  piQ : ℚ
  /-- `depth_map.cols`, the initial value of the nearest-other-finger
  distances. -/
  depthCols : ℚ

/-- The members of `ark::Hand` read by `extractHandFeatures` through the
accessors of `src/unnamed/part_000` (lines 826-869). -/
structure HandData where
  fingersXYZ : List V3
  fingersIJ : List IJ
  defectsXYZ : List V3
  defectsIJ : List IJ
  palmXYZ : V3
  palmIJ : IJ
  pointsXYZ : List V3
  surfArea : ℚ
  contour : List IJ
  hull : List IJ
  wrist : List V3
  bboxW : ℤ
  bboxH : ℤ
  circleRadius : ℚ

/-- Zero 3D sample, the out-of-range default for list indexing. -/
def v3zero : V3 := (0, 0, 0)

/-- Componentwise difference of two pixel points (`cv::Point` subtraction). -/
def ijSub (a b : IJ) : IJ := (a.1 - b.1, a.2 - b.2)

/-- Componentwise sum of two 3D samples. -/
def v3add (a b : V3) : V3 := (a.1 + b.1, a.2.1 + b.2.1, a.2.2 + b.2.2)

/-- Componentwise difference of two 3D samples. -/
def v3sub (a b : V3) : V3 := (a.1 - b.1, a.2.1 - b.2.1, a.2.2 - b.2.2)

/-- Componentwise halving of a 3D sample (`v / 2`). -/
def v3half (a : V3) : V3 := (a.1 / 2, a.2.1 / 2, a.2.2 / 2)

/-- `HandClassifier::computeMeanAndVariance` (`src/HandClassifier.cpp` lines
161-196): planar distance of every cluster point to the palm center is taken
with `sqrtf`; on an empty point list the averages are set to 1 and the
variances to 0. -/
def computeMeanAndVariance (sqrtQ : ℚ → ℚ) (points : List V3) (center : V3) :
    ℚ × ℚ × ℚ × ℚ :=
  let planarDist : V3 → ℚ := fun pt =>
    sqrtQ ((pt.1 - center.1) * (pt.1 - center.1) +
      (v3y pt - v3y center) * (v3y pt - v3y center))
  let total : ℕ := points.length
  if total = 0 then (1, 0, 1, 0)
  else
    let avgDist := (points.map planarDist).sum / (total : ℚ)
    let avgDepth := (points.map (fun pt => pt.2.2)).sum / (total : ℚ)
    let varDist := (points.map
      (fun pt => (planarDist pt - avgDist) * (planarDist pt - avgDist))).sum / (total : ℚ)
    let varDepth := (points.map
      (fun pt => (pt.2.2 - avgDepth) * (pt.2.2 - avgDepth))).sum / (total : ℚ)
    (avgDist, varDist, avgDepth, varDepth)

/-- The comparator actually applied by
`std::sort(fingerOrder.begin(), fingerOrder.end(),
std::greater<std::pair<int, int>>())` (`src/HandClassifier.cpp` line 99): each
`std::pair<double, int>` element is first converted to `std::pair<int, int>`,
truncating the finger length toward zero, and the converted pairs are compared
lexicographically with `>`. -/
def sortKeyGT (a b : ℚ × ℕ) : Bool :=
  decide (cppTrunc b.1 < cppTrunc a.1) ||
    (decide (cppTrunc a.1 = cppTrunc b.1) && decide (b.2 < a.2))

/-- Insertion step of the sort: place `x` before the first element it need not
follow. -/
def insertLe (le : α → α → Bool) (x : α) : List α → List α
  | [] => [x]
  | y :: ys => if le x y then x :: y :: ys else y :: insertLe le x ys

/-- Insertion sort by a boolean total preorder. -/
def insSort (le : α → α → Bool) : List α → List α
  | [] => []
  | x :: xs => insertLe le x (insSort le xs)

/-- Result of the `std::sort` call on `fingerOrder`.  The comparator keys
`(cppTrunc length, index)` are pairwise distinct (indices are), so the
strict-weak-order sort has a unique result, independent of the sorting
algorithm: descending by key.  An insertion sort with the complementary
total preorder realizes it. -/
def sortFingerOrder (l : List (ℚ × ℕ)) : List (ℚ × ℕ) :=
  insSort (fun a b => ! sortKeyGT b a) l

/-- Order in which the fingers are emitted into the per-finger feature block:
the original index sequence of `fingerOrder` after the sort, given the list of
3D finger lengths (`src/HandClassifier.cpp` lines 84-111). -/
def fingerPermutation (lens : List ℚ) : List ℕ :=
  (sortFingerOrder (lens.enum.map fun p => (p.2, p.1))).map (fun p => p.2)

/-- Per-finger block of the feature vector for original finger index `j`
(`src/HandClassifier.cpp` lines 110-147): seven entries, plus the four
nearest/farthest other-fingertip and other-defect distances when more than
one finger is present.  The nearest-distances start at `depth_map.cols` and
the farthest at 0, exactly as in the source. -/
def fingerBlock (ops : GeomOps) (h : HandData) (nF : ℕ) (j : ℕ) : List ℚ :=
  let finger := h.fingersXYZ.getD j v3zero
  let defect := h.defectsXYZ.getD j v3zero
  let fingerij := h.fingersIJ.getD j ((0 : ℤ), (0 : ℤ))
  let defectij := h.defectsIJ.getD j ((0 : ℤ), (0 : ℤ))
  let center := h.palmXYZ
  let centerij := h.palmIJ
  let base : List ℚ :=
    [ops.dist3 finger defect * 5,
     ops.dist3 defect center * 5,
     ops.dist3 finger center * 5,
     ops.angle3D finger defect center / ops.piQ,
     ops.angleIJ fingerij centerij defectij / ops.piQ,
     ops.pointToAngle (ijSub fingerij centerij),
     ops.pointToAngle (ijSub defectij centerij)]
  if 1 < nF then
    let others := (List.range nF).filter (fun jj => jj ≠ j)
    let distsFinger := others.map (fun jj => ops.dist3 finger (h.fingersXYZ.getD jj v3zero))
    let distsDefect := others.map (fun jj => ops.dist3 defect (h.defectsXYZ.getD jj v3zero))
    base ++
      [distsFinger.foldl min ops.depthCols * 5,
       distsFinger.foldl max 0 * 5,
       distsDefect.foldl min ops.depthCols * 5,
       distsDefect.foldl max 0 * 5]
  else base

/-- Restriction of the sanitization loop to the idealised `ℚ` value model:
`isnan` is never true of a rational, and the `result[i] >= FLT_MAX` branch
replaces the entry with 100. -/
def sanitizeQ (v : List ℚ) : List ℚ :=
  v.map fun q => if FLT_MAX_Q ≤ q then 100 else q

/-- `HandClassifier::extractHandFeatures` (`src/HandClassifier.cpp` lines
14-159).  The parameters `top_left`, `img_scale` and `full_wid` of the C++
signature are never read by the feature computation (`full_wid` is defaulted
and then unused) and are omitted.  Element 0 is the finger count; with no
fingers the length-1 vector is returned at once. -/
def extractHandFeatures (ops : GeomOps) (h : HandData) : List ℚ :=
  let nF := h.fingersXYZ.length
  if nF = 0 then [(nF : ℚ)]
  else
    let center := h.palmXYZ
    let mv := computeMeanAndVariance ops.sqrtQ h.pointsXYZ center
    let contArea := ops.contourArea h.contour
    let dpp := ops.diameter h.contour
    let paXYZ := ops.avgAround (h.contour.getD dpp.2.1 ((0 : ℤ), (0 : ℤ)))
    let pbXYZ := ops.avgAround (h.contour.getD dpp.2.2 ((0 : ℤ), (0 : ℤ)))
    let w0 := h.wrist.getD 0 v3zero
    let w1 := h.wrist.getD 1 v3zero
    let midWrist := v3add w0 (v3half (v3sub w1 w0))
    let lens := (List.range nF).map fun i =>
      ops.dist3 (h.fingersXYZ.getD i v3zero) (h.defectsXYZ.getD i v3zero)
    let avgLen := lens.sum
    let avgMidWristDist := ((List.range nF).map fun i =>
      ops.dist3 (h.fingersXYZ.getD i v3zero) midWrist).sum
    let fingerOrder := sortFingerOrder (lens.enum.map fun p => (p.2, p.1))
    let header : List ℚ :=
      [(nF : ℚ),
       mv.1 * 20,
       ops.sqrtQ mv.2.1 * 25,
       h.surfArea * 10,
       ops.sqrtQ mv.2.2.2 * 25,
       contArea / ops.contourArea h.hull,
       contArea / ((h.bboxW * h.bboxH : ℤ) : ℚ),
       ops.arcLength h.contour / ops.arcLength h.hull * (1 / 2),
       h.circleRadius / dpp.1 * 2,
       ops.dist3 paXYZ pbXYZ,
       ops.dist3 w0 w1,
       avgLen / (nF : ℚ) * 5,
       avgMidWristDist / (nF : ℚ) * 2]
    let perFinger := (fingerOrder.map fun p => fingerBlock ops h nF p.2).flatten
    sanitizeQ (header ++ perFinger)

/-! ## Curvature windows of the finger filter (`src/unnamed/part_000`,
lines 427-449 and 615-640)

`util::contourCurvature(contour, index, lo, hi)` is external; it is
abstracted as a function `curv : ℤ → ℤ → ℤ → ℚ` of the center index and the
two window offsets, with the contour baked in. -/

/-- Circular arc distance between the tip index and the defect index
(`points_to_defect`, `src/unnamed/part_000` lines 427-430):
`min(abs(d - t), min(d, t) + contour.size() - max(d, t))`. -/
def pointsToDefect (n : ℕ) (t d : ℤ) : ℤ :=
  min |d - t| (min d t + (n : ℤ) - max d t)

/-- The three curvature windows computed from the tip-defect arc length
(`src/unnamed/part_000` lines 435-440, identically lines 626-631): near
`(max 2 (ptd/20), +4)`, mid `(max 2 (ptd/5), +5)`, far
`(max 2 (ptd*9/10), +5)`.  All quantities are C++ `int`s; the divisions only
ever run with `ptd ≥ 10`, where C++ and Lean integer division agree. -/
def curveWindows (ptd : ℤ) : (ℤ × ℤ) × (ℤ × ℤ) × (ℤ × ℤ) :=
  let nearLo := max 2 (ptd / 20)
  let midLo := max 2 (ptd / 5)
  let farLo := max 2 (ptd * 9 / 10)
  ((nearLo, nearLo + 4), (midLo, midLo + 5), (farLo, farLo + 5))

/-- Curvature samples of the multi-finger filter as the source computes them
(`src/unnamed/part_000` lines 442-449): near and far centered at the
candidate tip contour index `fingerTipCands[i]`, but mid centered at
`indexHull[i]` (`i` being the candidate loop counter); the pair returned is
`(curve_near, curve_far)` after `curve_far = min(curve_mid, curve_far)`. -/
def multiFingerCurvatures (curv : ℤ → ℤ → ℤ → ℚ) (tipIdx hullIdx ptd : ℤ) :
    ℚ × ℚ :=
  let w := curveWindows ptd
  let curveNear := curv tipIdx w.1.1 w.1.2
  let curveMid := curv hullIdx w.2.1.1 w.2.1.2
  let curveFar := curv tipIdx w.2.2.1 w.2.2.2
  (curveNear, min curveMid curveFar)

/-- Modelled from the spec: the filter curvature samples with all three
windows centered at the candidate tip contour index ("Compute three curvature
samples around the tip index using windows scaled to the tip-defect arc
length"), effective far-curvature `min(mid, far)`.  This is exactly how the
single-finger fallback computes them (`src/unnamed/part_000` lines 633-640). -/
def multiFingerCurvaturesSpec (curv : ℤ → ℤ → ℤ → ℚ) (tipIdx ptd : ℤ) :
    ℚ × ℚ :=
  let w := curveWindows ptd
  let curveNear := curv tipIdx w.1.1 w.1.2
  let curveMid := curv tipIdx w.2.1.1 w.2.1.2
  let curveFar := curv tipIdx w.2.2.1 w.2.2.2
  (curveNear, min curveMid curveFar)

/-- Curvature probe used to separate the two definitions: it reports the
center index a sample was taken at, ignoring the window. -/
def curvProbe : ℤ → ℤ → ℤ → ℚ := fun c _ _ => (c : ℚ)

/-! ## `Hand::checkForHand` (`src/unnamed/part_000`, lines 96-708)

The function is modelled from the wrist stage onward; everything earlier
(contour, hull, convexity defects, palm circle, the contact-point scan of
lines 156-191, the per-candidate geometric quantities of lines 407-477 and
the convex-hull scan of the single-finger fallback, lines 534-566) is
computed by external geometry primitives and enters the model as the fields
of `HandIn`.  The model returns the acceptance boolean together with the
final four landmark lists `fingersIJ`, `fingersXYZ`, `defectsIJ`,
`defectsXYZ`. -/

/-- One fingertip/defect candidate surviving the per-candidate filter
(`src/unnamed/part_000` lines 480-484): pixel and world positions of the tip
and of its defect far point. -/
structure Cand where
  tipIJ : IJ
  tipXYZ : V3
  defIJ : IJ
  defXYZ : V3
deriving DecidableEq

/-- One retained "good" defect as seen by the single-finger fallback
(`src/unnamed/part_000` lines 585-601): far point (snapped), its world
position, and its contour index `defect[2]`. -/
structure GoodDef where
  farIJ : IJ
  farXYZ : V3
  idx : ℤ
deriving DecidableEq

/-- Inputs of the `checkForHand` model: the per-evaluation state together
with the external geometric quantities feeding each stage. -/
structure HandIn where
  /-- `points->size() == 0 || num_points == 0` (line 101). -/
  pointsEmpty : Bool
  /-- `contour.size()`. -/
  n : ℕ
  /-- Contact indices `(contactL, contactR)` produced by the scan of lines
  156-191, `none` when the scan set neither. -/
  contacts : Option (ℕ × ℕ)
  /-- Distance of the local xyz sample at contour index `i` to the palm
  center (lines 208-211 and 224-227). -/
  wdist : ℕ → ℚ
  /-- `params->wristCenterDistThresh`. -/
  wristCenterDistThresh : ℚ
  /-- World position sampled at a wrist contour index (lines 248-251). -/
  wxyz : ℕ → V3
  /-- `util::euclideanDistance` on world samples. -/
  dist3 : V3 → V3 → ℚ
  /-- `params->wristWidthMin`. -/
  wristWidthMin : ℚ
  /-- `params->wristWidthMax`. -/
  wristWidthMax : ℚ
  /-- The fingertip/defect candidate pairs of lines 407-410. -/
  cands : List Cand
  /-- The multi-criteria per-candidate filter of lines 412-477 (distance,
  slope, angle, depth and curvature criteria), as a predicate. -/
  accept : Cand → Bool
  /-- `params->fingerDistMin`. -/
  fingerDistMin : ℚ
  /-- Fallback index-finger candidate: pixel position after the snap of line
  561. -/
  sfCandIJ : IJ
  /-- Fallback index-finger candidate: world position (line 563-564). -/
  sfCandXYZ : V3
  /-- Fallback index-finger candidate: hull contour index `indexFinger_idx`. -/
  sfCandIdx : ℤ
  /-- Angle at the candidate between its hull neighbours (line 566). -/
  sfAngle : ℚ
  /-- Whether the candidate lies on the image border (lines 571-572). -/
  sfOnEdge : Bool
  /-- `params->singleFingerAngleThresh`. -/
  singleFingerAngleThresh : ℚ
  /-- The retained good defects, in order (lines 277, 339). -/
  goodDefects : List GoodDef
  /-- `palmCenterIJ` (line 138). -/
  palmIJ : IJ
  /-- `palmCenterXYZ` (line 139). -/
  palmXYZ : V3
  /-- `params->singleFingerLenMin`. -/
  singleFingerLenMin : ℚ
  /-- `params->singleFingerLenMax`. -/
  singleFingerLenMax : ℚ
  /-- Whether the build defines `PLANE_ENABLED`, skipping the fallback
  curvature re-validation (lines 624, 676). -/
  planeEnabled : Bool
  /-- `util::contourCurvature` on the contour of this evaluation. -/
  curv : ℤ → ℤ → ℤ → ℚ
  /-- `params->fingerCurveNearMin`. -/
  fingerCurveNearMin : ℚ
  /-- `params->fingerCurveNearMax`. -/
  fingerCurveNearMax : ℚ
  /-- `params->fingerCurveFarMin`. -/
  fingerCurveFarMin : ℚ
  /-- `params->fingerCurveFarMax`. -/
  fingerCurveFarMax : ℚ
  /-- `params->handUseSVM`. -/
  handUseSVM : Bool
  /-- `handClassifier.isTrained()`. -/
  svmTrained : Bool
  /-- `handClassifier.classify(features)` for this evaluation. -/
  svmConf : ℚ
  /-- `params->handSVMConfidenceThresh`. -/
  handSVMConfidenceThresh : ℚ

/-- The four landmark lists of a `Hand`. -/
structure HandLists where
  fingersIJ : List IJ
  fingersXYZ : List V3
  defectsIJ : List IJ
  defectsXYZ : List V3
deriving DecidableEq

/-- Result of a `checkForHand` evaluation: the returned boolean and the
landmark lists the `Hand` is left with. -/
structure HandOut where
  accepted : Bool
  fingersIJ : List IJ
  fingersXYZ : List V3
  defectsIJ : List IJ
  defectsXYZ : List V3
deriving DecidableEq

/-- `Hand::getNumFingers` (`src/unnamed/part_000` lines 76-78):
`fingersXYZ.size()`. -/
def getNumFingers (o : HandOut) : ℕ := o.fingersXYZ.length

/-- Evaluation rejected before any landmark was pushed: the lists are empty. -/
def rejectedEmpty : HandOut := ⟨false, [], [], [], []⟩

/-- Circular index step `(i + d + n) % n` (`src/unnamed/part_000` lines 218
and 234); `d` is `±1`. -/
def nextIdx (n : ℕ) (i : ℕ) (d : ℤ) : ℕ := (((i : ℤ) + d + (n : ℤ)) % (n : ℤ)).toNat

/-- Body of the inward wrist walk, a `do { } while (i != stop)` loop
(`src/unnamed/part_000` lines 205-219): at each visited index the sampled
distance to the palm center is tested against the threshold; the loop exits
without success when the step lands on `stop`.  The loop body runs at most
`n` times (the visited indices before reaching `stop` are distinct), so
`fuel = n` reproduces the loop exactly. -/
def wristWalkAux (wdist : ℕ → ℚ) (thresh : ℚ) (n : ℕ) (stop : ℕ) (d : ℤ) :
    ℕ → ℕ → Option ℕ
  | 0, _ => none
  | fuel + 1, i =>
    if wdist i ≤ thresh then some i
    else if nextIdx n i d = stop then none
    else wristWalkAux wdist thresh n stop d fuel (nextIdx n i d)

/-- One inward wrist walk from `start` toward `stop` with step `d`. -/
def wristWalk (wdist : ℕ → ℚ) (thresh : ℚ) (n : ℕ) (start stop : ℕ) (d : ℤ) :
    Option ℕ :=
  wristWalkAux wdist thresh n stop d n start

/-- Traversal direction inferred from the two contacts
(`src/unnamed/part_000` lines 197-202): `-1` when the forward arc from
`contactL` to `contactR` is the short side, else `1`. -/
def wristDirection (n cL cR : ℕ) : ℤ :=
  if (cL < cR ∧ cR - cL < n / 2) ∨ (cR ≤ cL ∧ n / 2 ≤ cL - cR) then -1 else 1

/-- The wrist stage (`src/unnamed/part_000` lines 193-244): with no contacts
both wrist indices stay `-1`; otherwise the two walks run, the first from
`contactL` with step `direction`, the second from `contactR` with step
`-direction`.  The stage yields the wrist index pair, or `none` when either
walk exhausts its traversal. -/
def wristStage (wdist : ℕ → ℚ) (thresh : ℚ) (n : ℕ) :
    Option (ℕ × ℕ) → Option (ℕ × ℕ)
  | none => none
  | some (cL, cR) =>
    let d := wristDirection n cL cR
    match wristWalk wdist thresh n cL cR d, wristWalk wdist thresh n cR cL (-d) with
    | some wL, some wR => some (wL, wR)
    | some _, none => none
    | none, some _ => none
    | none, none => none

/-! ### Finger deduplication (`src/unnamed/part_000`, lines 489-519) -/

/-- The `continue` condition of the inner deduplication loop
(`src/unnamed/part_000` lines 496-497): candidate `j` is skipped when
`fingerTipsXyz[i][1] > fingerTipsXyz[j][1]`, or the `y` components are equal
and `i >= j`. -/
def dedupSkip (ti : V3) (i : ℕ) (tj : V3) (j : ℕ) : Bool :=
  decide (v3y tj < v3y ti) || (decide (v3y ti = v3y tj) && decide (j ≤ i))

/-- Comparison `dist < mindist` against the running minimum, where `none`
stands for the `DBL_MAX` initial value. -/
def ltRunningMin (d : ℚ) : Option ℚ → Bool
  | none => true
  | some m => decide (d < m)

/-- Comparison `mindist < fingerDistMin` of the running minimum against the
threshold (`DBL_MAX`, i.e. `none`, is never below it). -/
def runningMinLt : Option ℚ → ℚ → Bool
  | none, _ => false
  | some m, t => decide (m < t)

/-- Inner loop of the deduplication pass for candidate `i`
(`src/unnamed/part_000` lines 493-504): walk the enumerated tip list,
skipping by `dedupSkip`, keeping the minimum distance, and break out as soon
as the updated minimum falls below the threshold. -/
def dedupInner (d3 : V3 → V3 → ℚ) (thresh : ℚ) (ti : V3) (i : ℕ) :
    List (ℕ × V3) → Option ℚ → Option ℚ
  | [], m => m
  | (j, tj) :: rest, m =>
    if dedupSkip ti i tj j then dedupInner d3 thresh ti i rest m
    else
      let d := d3 ti tj
      if ltRunningMin d m then
        if d < thresh then some d
        else dedupInner d3 thresh ti i rest (some d)
      else dedupInner d3 thresh ti i rest m

/-- Whether candidate `i` (with tip sample `ti`) is removed by the
deduplication pass (`src/unnamed/part_000` line 507). -/
def dedupDrop (d3 : V3 → V3 → ℚ) (thresh : ℚ) (tips : List V3) (i : ℕ)
    (ti : V3) : Bool :=
  runningMinLt (dedupInner d3 thresh ti i tips.enum none) thresh

/-- The candidates surviving deduplication, in order
(`src/unnamed/part_000` lines 492-519): the inner loop always ranges over
the full pre-deduplication tip list. -/
def dedupFingers (d3 : V3 → V3 → ℚ) (thresh : ℚ) (flt : List Cand) : List Cand :=
  ((flt.enum).filter fun p =>
    ! dedupDrop d3 thresh (flt.map (fun c => c.tipXYZ)) p.1 p.2.tipXYZ).map
    (fun p => p.2)

/-- Modelled from the spec: "for each accepted candidate, find the minimum 3D
distance to any other candidate with strictly smaller row; drop it if that
minimum < `fingerDistMin`" - the row being the pixel row (the `y` of the ij
point), as the claim states it. -/
def specDedupKept (d3 : V3 → V3 → ℚ) (thresh : ℚ) (flt : List Cand) : List Cand :=
  ((flt.enum).filter fun p =>
    ! ((flt.enum).any fun q =>
      decide (q.2.tipIJ.2 < p.2.tipIJ.2) &&
        decide (d3 q.2.tipXYZ p.2.tipXYZ < thresh))).map (fun p => p.2)

/-- The four landmark lists produced by the deduplication pass: the survivors
are pushed to all four lists together (`src/unnamed/part_000` lines
509-518). -/
def dedupStage (d3 : V3 → V3 → ℚ) (thresh : ℚ) (flt : List Cand) : HandLists :=
  let kept := dedupFingers d3 thresh flt
  ⟨kept.map (fun c => c.tipIJ), kept.map (fun c => c.tipXYZ),
   kept.map (fun c => c.defIJ), kept.map (fun c => c.defXYZ)⟩

/-! ### Single-finger fallback (`src/unnamed/part_000`, lines 521-681) -/

/-- Selection of the best good defect for the fallback finger
(`src/unnamed/part_000` lines 580-601): among good defects whose 3D distance
to the candidate exceeds `singleFingerLenMin`, the one with minimal distance
(the first such on ties, by the strict `dist < best` update). -/
def bestDefect (d3 : V3 → V3 → ℚ) (sfLenMin : ℚ) (candXYZ : V3) :
    List GoodDef → Option (GoodDef × ℚ) → Option (GoodDef × ℚ)
  | [], acc => acc
  | gd :: rest, acc =>
    let dist := d3 gd.farXYZ candXYZ
    let better := decide (sfLenMin < dist) && (match acc with
      | none => true
      | some pr => decide (dist < pr.2))
    if better then bestDefect d3 sfLenMin candXYZ rest (some (gd, dist))
    else bestDefect d3 sfLenMin candXYZ rest acc

/-- The curvature re-validation of the fallback
(`src/unnamed/part_000` lines 626-663): all three samples centered at the
candidate index, effective far-curvature `min(mid, far)`, both band checks. -/
def sfCurveOK (h : HandIn) (ptd : ℤ) : Bool :=
  let w := curveWindows ptd
  let curveNear := h.curv h.sfCandIdx w.1.1 w.1.2
  let curveMid := h.curv h.sfCandIdx w.2.1.1 w.2.1.2
  let curveFar := min curveMid (h.curv h.sfCandIdx w.2.2.1 w.2.2.2)
  decide (h.fingerCurveNearMin ≤ curveNear) && decide (curveNear ≤ h.fingerCurveNearMax) &&
    decide (h.fingerCurveFarMin ≤ curveFar) && decide (curveFar ≤ h.fingerCurveFarMax)

/-- Tail of the single-finger fallback after the defect has been chosen
(`src/unnamed/part_000` lines 615-679): the arc-length check, the curvature
re-validation (skipped under `PLANE_ENABLED`), and the final length bounds;
each failure clears all four lists. -/
def sfAssemble (h : HandIn) (defIJ : IJ) (defXYZ : V3) (bestIdx : ℤ) : HandLists :=
  if pointsToDefect h.n bestIdx h.sfCandIdx < 10 then ⟨[], [], [], []⟩
  else if ¬ h.planeEnabled ∧
      ¬ (sfCurveOK h (pointsToDefect h.n bestIdx h.sfCandIdx) = true) then
    ⟨[], [], [], []⟩
  else if h.singleFingerLenMax < h.dist3 h.sfCandXYZ defXYZ ∨
      h.dist3 h.sfCandXYZ defXYZ < h.singleFingerLenMin then
    ⟨[], [], [], []⟩
  else ⟨[h.sfCandIJ], [h.sfCandXYZ], [defIJ], [defXYZ]⟩

/-- The single-finger fallback (`src/unnamed/part_000` lines 521-681),
entered when at most one finger survives deduplication.  It discards the
deduplication output entirely (lines 524-526 and 568) and either produces a
single synchronized finger/defect pair or leaves all four lists empty.  When
no good defect qualifies, the palm center substitutes as a degenerate defect
with index -1 (lines 603-607). -/
def singleFingerFallback (h : HandIn) : HandLists :=
  if h.sfAngle ≤ h.singleFingerAngleThresh ∨ h.sfOnEdge ∨ h.goodDefects.isEmpty then
    ⟨[], [], [], []⟩
  else
    match bestDefect h.dist3 h.singleFingerLenMin h.sfCandXYZ h.goodDefects none with
    | none => sfAssemble h h.palmIJ h.palmXYZ (-1)
    | some pr => sfAssemble h pr.1.farIJ pr.1.farXYZ pr.1.idx

/-- The acceptance gate (`src/unnamed/part_000` lines 687-707): reject when
the finger count is outside `[1, 6]`; then, with SVM gating enabled and a
trained classifier, reject when the confidence is below the threshold;
otherwise accept.  The landmark lists are left as they are in every case. -/
def acceptanceGate (useSVM trained : Bool) (conf thresh : ℚ) (l : HandLists) :
    HandOut :=
  if 6 < l.fingersIJ.length ∨ l.fingersIJ.length < 1 then
    ⟨false, l.fingersIJ, l.fingersXYZ, l.defectsIJ, l.defectsXYZ⟩
  else if useSVM ∧ trained then
    if conf < thresh then ⟨false, l.fingersIJ, l.fingersXYZ, l.defectsIJ, l.defectsXYZ⟩
    else ⟨true, l.fingersIJ, l.fingersXYZ, l.defectsIJ, l.defectsXYZ⟩
  else ⟨true, l.fingersIJ, l.fingersXYZ, l.defectsIJ, l.defectsXYZ⟩

/-- The `checkForHand` model (`src/unnamed/part_000` lines 96-708): empty
cluster and wrist failures reject with the lists still empty; then the
per-candidate filter, deduplication, the single-finger fallback when at most
one finger survives, and the acceptance gate. -/
def runCheckForHand (h : HandIn) : HandOut :=
  if h.pointsEmpty then rejectedEmpty
  else
    match wristStage h.wdist h.wristCenterDistThresh h.n h.contacts with
    | none => rejectedEmpty
    | some wlr =>
      if h.dist3 (h.wxyz wlr.1) (h.wxyz wlr.2) < h.wristWidthMin ∨
          h.wristWidthMax < h.dist3 (h.wxyz wlr.1) (h.wxyz wlr.2) then rejectedEmpty
      else
        acceptanceGate h.handUseSVM h.svmTrained h.svmConf h.handSVMConfidenceThresh
          (if (dedupStage h.dist3 h.fingerDistMin
              (h.cands.filter h.accept)).fingersXYZ.length ≤ 1 then
            singleFingerFallback h
          else dedupStage h.dist3 h.fingerDistMin (h.cands.filter h.accept))

/-! ## Concrete instances used by witnesses and counterexamples -/

/-- Stub instantiation of the external geometry primitives, used to evaluate
the feature extractor on a concrete hand. -/
def stubOps : GeomOps :=
  { sqrtQ := fun q => q
    dist3 := fun _ _ => 0
    contourArea := fun _ => 1
    arcLength := fun _ => 1
    diameter := fun _ => (1, 0, 0)
    avgAround := fun _ => v3zero
    angle3D := fun _ _ _ => 0
    angleIJ := fun _ _ _ => 0
    pointToAngle := fun _ => 0
    piQ := mkRat 314159 100000
    depthCols := 100 }

/-- A concrete hand with exactly one finger. -/
def oneFingerHand : HandData :=
  { fingersXYZ := [(0, 0, 1)]
    fingersIJ := [(5, 5)]
    defectsXYZ := [(0, 0, 1)]
    defectsIJ := [(6, 6)]
    palmXYZ := (0, 0, 1)
    palmIJ := (0, 0)
    pointsXYZ := [(0, 0, 1)]
    surfArea := mkRat 1 50
    contour := [(0, 0), (1, 0), (1, 1)]
    hull := [(0, 0), (1, 0), (1, 1)]
    wrist := [(0, 0, 1), (1, 0, 1)]
    bboxW := 10
    bboxH := 10
    circleRadius := 2 }

/-- Baseline `checkForHand` input: contacts found at contour indices 0 and 6
of a 12-point contour, every sampled point at the palm center (so the wrist
walks succeed at once), wrist width 1/20 within `[1/100, 1/10]`, no finger
candidates, SVM gating disabled, default-valued thresholds elsewhere. -/
def baseHandIn : HandIn :=
  { pointsEmpty := false
    n := 12
    contacts := some (0, 6)
    wdist := fun _ => 0
    wristCenterDistThresh := 1
    wxyz := fun _ => v3zero
    dist3 := fun _ _ => mkRat 1 20
    wristWidthMin := mkRat 1 100
    wristWidthMax := mkRat 1 10
    cands := []
    accept := fun _ => true
    fingerDistMin := mkRat 1 100
    sfCandIJ := (0, 0)
    sfCandXYZ := v3zero
    sfCandIdx := 0
    sfAngle := 0
    sfOnEdge := false
    singleFingerAngleThresh := mkRat 2 25
    goodDefects := []
    palmIJ := (0, 0)
    palmXYZ := v3zero
    singleFingerLenMin := mkRat 1 25
    singleFingerLenMax := mkRat 11 100
    planeEnabled := false
    curv := fun _ _ _ => 0
    fingerCurveNearMin := mkRat 19 20
    fingerCurveNearMax := mkRat 14 5
    fingerCurveFarMin := mkRat 1 20
    fingerCurveFarMax := mkRat 6 5
    handUseSVM := false
    svmTrained := false
    svmConf := 0
    handSVMConfidenceThresh := mkRat 9 20 }

/-- Accepting evaluation: two well-separated candidates (mutual 3D distance
1/20 ≥ `fingerDistMin`) survive deduplication, giving finger count 2 with
SVM gating disabled. -/
def handInAccept : HandIn :=
  { baseHandIn with
    cands := [⟨(0, 0), (0, 0, 1), (0, 0), (0, 0, 1)⟩,
              ⟨(0, 1), (0, 1, 1), (0, 0), (0, 0, 1)⟩] }

/-- Evaluation in which every sampled contour point stays at distance 1 from
the palm center while `wristCenterDistThresh` is 0: both wrist walks exhaust
their traversal. -/
def handInFarWrist : HandIn :=
  { baseHandIn with
    wdist := fun _ => 1
    wristCenterDistThresh := 0 }

/-- Metric used by the deduplication counterexample.  The two candidate tips
share their `x` and `z` components and have world `y` components 1/10 and
21/200, so on every pair of them the Euclidean distance is `|y - y'|`: 0 on
equal tips and 1/200 otherwise, which is what this function returns. -/
def dC8 : V3 → V3 → ℚ := fun a b => if v3y a = v3y b then 0 else mkRat 1 200

/-- Upper candidate of the too-close pair: pixel row 10, world `y` 1/10. -/
def candUpper : Cand := ⟨(5, 10), (0, mkRat 1 10, 1), (0, 0), v3zero⟩

/-- Lower candidate of the too-close pair: pixel row 20, world `y` 21/200;
its Euclidean distance to `candUpper` is 1/200 = 0.005 m, below
`fingerDistMin` = 1/100. -/
def candLower : Cand := ⟨(5, 20), (0, mkRat 21 200, 1), (0, 0), v3zero⟩

/-! ## Theorems -/

/-- C5: `classify` raises the distinguished not-trained error exactly when the
classifier is untrained: invoked while untrained it fails fast with
`ClassifierNotTrainedException`, and on a trained classifier it never
produces that error, whatever the feature vector and the underlying bucket
models. -/
theorem classify_not_trained_error_iff (trained : Bool) (maxFeatures : ℕ)
    (predict : ℤ → List ℚ → ℚ) (features : List ℚ) :
    classify trained maxFeatures predict features =
      Except.error ClassifierError.notTrained ↔ trained = false := by
  cases trained
  · simp [classify]
  · unfold classify
    rw [if_neg (by simp)]
    split <;> simp

/-- C6: on a trained classifier, `classify` always returns a value, and the
value is clamped into the closed interval `[0, 1]`, for every feature vector
and every instantiation of the underlying bucket models.  Determinism for a
fixed vector is inherent: `classify` is embedded as a pure function of its
arguments, faithfully to the `const` C++ method. -/
theorem classify_trained_clamped (maxFeatures : ℕ) (predict : ℤ → List ℚ → ℚ)
    (features : List ℚ) :
    ∃ q : ℚ, classify true maxFeatures predict features = Except.ok q ∧
      0 ≤ q ∧ q ≤ 1 := by
  unfold classify
  rw [if_neg (by simp)]
  split
  · exact ⟨0, rfl, le_refl 0, by norm_num⟩
  · exact ⟨_, rfl, le_max_right _ _, max_le (min_le_left _ _) (by norm_num)⟩

/-- C9 counterexample: the sanitization pass maps plus infinity to 100 (not
to 1.0, though it is non-finite), and leaves minus infinity in place, so the
returned vector is not made of finite values below the sentinel. -/
theorem sanitize_nonfinite_counterexample :
    sanitizeFeatures [DVal.pinf, DVal.ninf] = [DVal.fin 100, DVal.ninf] ∧
      sanitizeFeature DVal.pinf ≠ DVal.fin 1 ∧
      ¬ (∀ x ∈ sanitizeFeatures [DVal.pinf, DVal.ninf],
          isFiniteBelowSentinel x = true) := by decide

/-- C9 amended: after the sanitization pass every NaN entry has been replaced
by 1.0 and every entry comparing `≥ FLT_MAX` (plus infinity included) by
100.0; minus infinity passes through unchanged.  Hence the returned vector
contains no NaN and no entry at or above the sentinel, though it can still
contain minus infinity. -/
theorem sanitize_output_no_nan_no_sentinel (v : List DVal) (x : DVal)
    (hx : x ∈ sanitizeFeatures v) : isnanD x = false ∧ geFltMax x = false := by
  obtain ⟨y, _, rfl⟩ := List.mem_map.mp hx
  cases y with
  | nan => decide
  | pinf => decide
  | ninf => decide
  | fin q =>
    rw [sanitizeFeature, if_neg (by simp [isnanD])]
    by_cases hq : FLT_MAX_Q ≤ q
    · rw [if_pos (by simp [geFltMax, hq])]
      decide
    · rw [if_neg (by simp [geFltMax, hq])]
      simp [isnanD, geFltMax, hq]

/-- C9 witness: a NaN entry comes out as the finite value 1. -/
theorem sanitize_output_no_nan_no_sentinel_witness :
    DVal.fin 1 ∈ sanitizeFeatures [DVal.nan] ∧
      isnanD (DVal.fin 1) = false ∧ geFltMax (DVal.fin 1) = false :=
  ⟨by decide, sanitize_output_no_nan_no_sentinel [DVal.nan] (DVal.fin 1) (by decide)⟩

/-- C2: the mid curvature sample of the multi-finger filter is NOT centered
at the candidate tip's contour index: the source centers it at
`indexHull[i]` (`src/unnamed/part_000` line 444), `i` being the candidate
loop counter, while near and far are centered at `fingerTipCands[i]`.  With
a curvature probe reporting its center index, a candidate whose tip index is
5 while `indexHull[i] = 3` (arc length 40) yields effective far-curvature 3
where the all-at-the-tip computation of the claim (and of the single-finger
fallback, lines 633-640) yields 5. -/
theorem mid_curvature_centered_at_hull_index :
    multiFingerCurvatures curvProbe 5 3 40 = (5, 3) ∧
      multiFingerCurvaturesSpec curvProbe 5 40 = (5, 5) ∧
      multiFingerCurvatures curvProbe 5 3 40 ≠
        multiFingerCurvaturesSpec curvProbe 5 40 := by decide

/-- C3: the per-finger blocks are NOT ordered by descending 3D finger length.
The comparator `std::greater<std::pair<int, int>>` first converts each
`(length, index)` pair to `std::pair<int, int>`, truncating every realistic
finger length (meters, below 1) to 0, so the sort orders by descending
original index instead: two fingers of lengths 0.1 m and 0.05 m at indices 0
and 1 come out in the order `[1, 0]`, though descending length (the order
stated by the source comment "(order the fingers by length)") is `[0, 1]`. -/
theorem finger_order_ignores_length :
    fingerPermutation [mkRat 1 10, mkRat 1 20] = [1, 0] ∧
      fingerPermutation [mkRat 1 10, mkRat 1 20] ≠ [0, 1] := by decide

theorem length_insertLe (le : α → α → Bool) (x : α) (l : List α) :
    (insertLe le x l).length = l.length + 1 := by
  induction l with
  | nil => rfl
  | cons y ys ih =>
    rw [insertLe]
    split
    · rfl
    · simp [ih]

theorem length_insSort (le : α → α → Bool) (l : List α) :
    (insSort le l).length = l.length := by
  induction l with
  | nil => rfl
  | cons x xs ih => rw [insSort, length_insertLe, ih, List.length_cons]

theorem length_fingerBlock (ops : GeomOps) (h : HandData) (nF j : ℕ) :
    (fingerBlock ops h nF j).length = if 1 < nF then 11 else 7 := by
  rw [fingerBlock]
  split <;> simp

theorem sum_map_const {α : Type} (l : List α) (c : ℕ) :
    (l.map fun _ => c).sum = l.length * c := by
  induction l with
  | nil => simp
  | cons x xs ih => simp [ih, Nat.succ_mul, Nat.add_comm]

/-- C1 counterexample: on a concrete evaluated hand with exactly one finger,
the feature vector has 20 elements, not the `1 + 11 + 1 × 7 = 19` the claim
states: the fixed scalar block has 12 entries, not 11. -/
theorem feature_vector_length_counterexample :
    (extractHandFeatures stubOps oneFingerHand).length = 20 ∧
      ¬ ((extractHandFeatures stubOps oneFingerHand).length = 1 + 11 + 1 * 7) := by
  decide

/-- C1 amended: the feature vector has length 1 when the finger count is 0,
and otherwise length `1 + 12 + fingers × 7` for one finger and
`1 + 12 + fingers × 11` for more than one finger: one count element, a
12-element fixed scalar block, then 7 or 11 elements per finger. -/
theorem feature_vector_length (ops : GeomOps) (h : HandData) :
    (extractHandFeatures ops h).length =
      if h.fingersXYZ.length = 0 then 1
      else 1 + 12 + h.fingersXYZ.length *
        (if h.fingersXYZ.length = 1 then 7 else 11) := by
  rw [extractHandFeatures]
  by_cases h0 : h.fingersXYZ.length = 0
  · simp [h0]
  · rw [if_neg h0, if_neg h0]
    rw [sanitizeQ, List.length_map, List.length_append]
    have hsort : (sortFingerOrder
        (((List.range h.fingersXYZ.length).map fun i =>
          ops.dist3 (h.fingersXYZ.getD i v3zero)
            (h.defectsXYZ.getD i v3zero)).enum.map
          fun p => (p.2, p.1))).length = h.fingersXYZ.length := by
      rw [sortFingerOrder, length_insSort, List.length_map, List.enum_length,
        List.length_map, List.length_range]
    rw [List.length_flatten, List.map_map]
    have hmap : (List.map (List.length ∘ fun p => fingerBlock ops h h.fingersXYZ.length p.2)
        (sortFingerOrder
          (((List.range h.fingersXYZ.length).map fun i =>
            ops.dist3 (h.fingersXYZ.getD i v3zero)
              (h.defectsXYZ.getD i v3zero)).enum.map
            fun p => (p.2, p.1)))) =
        (sortFingerOrder
          (((List.range h.fingersXYZ.length).map fun i =>
            ops.dist3 (h.fingersXYZ.getD i v3zero)
              (h.defectsXYZ.getD i v3zero)).enum.map
            fun p => (p.2, p.1))).map
          (fun _ => if 1 < h.fingersXYZ.length then 11 else 7) := by
      apply List.map_congr_left
      intro p _
      exact length_fingerBlock ops h h.fingersXYZ.length p.2
    rw [hmap, sum_map_const, hsort]
    by_cases h1 : h.fingersXYZ.length = 1
    · simp [h1]
    · have hgt : 1 < h.fingersXYZ.length := by omega
      rw [if_pos hgt, if_neg h1]
      simp

theorem wristWalkAux_some_le (wdist : ℕ → ℚ) (thresh : ℚ) (n stop : ℕ) (d : ℤ) :
    ∀ (fuel i j : ℕ), wristWalkAux wdist thresh n stop d fuel i = some j →
      wdist j ≤ thresh := by
  intro fuel
  induction fuel with
  | zero =>
    intro i j hj
    simp [wristWalkAux] at hj
  | succ k ih =>
    intro i j hj
    rw [wristWalkAux] at hj
    split at hj
    · cases hj
      assumption
    · split at hj
      · cases hj
      · exact ih _ _ hj

theorem wristWalk_none_of_far (wdist : ℕ → ℚ) (thresh : ℚ) (n : ℕ)
    (hfar : ∀ i, thresh < wdist i) (start stop : ℕ) (d : ℤ) :
    wristWalk wdist thresh n start stop d = none := by
  cases hw : wristWalk wdist thresh n start stop d with
  | none => rfl
  | some j =>
    exact absurd (wristWalkAux_some_le wdist thresh n stop d n start j hw)
      (not_le.mpr (hfar j))

theorem wristStage_none_of_far (wdist : ℕ → ℚ) (thresh : ℚ) (n : ℕ)
    (cs : Option (ℕ × ℕ)) (hfar : ∀ i, thresh < wdist i) :
    wristStage wdist thresh n cs = none := by
  cases cs with
  | none => rfl
  | some p =>
    rw [wristStage]
    rw [wristWalk_none_of_far wdist thresh n hfar,
      wristWalk_none_of_far wdist thresh n hfar]

/-- C7: when every sampled contour point stays farther than
`wristCenterDistThresh` from the palm center, both inward wrist walks exhaust
their contour traversal, and the evaluation is rejected with all four
landmark lists still empty - rejection happens before any finger detection
runs, whatever candidates, filter or fallback data the later stages would
have seen. -/
theorem wrist_walk_exhaustion_rejects (h : HandIn)
    (hfar : ∀ i, h.wristCenterDistThresh < h.wdist i) :
    runCheckForHand h = rejectedEmpty := by
  rw [runCheckForHand]
  split
  · rfl
  · rw [wristStage_none_of_far h.wdist h.wristCenterDistThresh h.n h.contacts hfar]

/-- C7 witness: with every sample at distance 1 and threshold 0, the concrete
evaluation is rejected empty. -/
theorem wrist_walk_exhaustion_rejects_witness :
    (∀ i : ℕ, handInFarWrist.wristCenterDistThresh < handInFarWrist.wdist i) ∧
      runCheckForHand handInFarWrist = rejectedEmpty :=
  ⟨fun _ => show (0 : ℚ) < 1 by norm_num,
   wrist_walk_exhaustion_rejects handInFarWrist
     (fun _ => show (0 : ℚ) < 1 by norm_num)⟩

theorem acceptanceGate_fingersIJ (useSVM trained : Bool) (conf thresh : ℚ)
    (l : HandLists) :
    (acceptanceGate useSVM trained conf thresh l).fingersIJ = l.fingersIJ := by
  rw [acceptanceGate]
  split
  · rfl
  · split
    · split <;> rfl
    · rfl

theorem acceptanceGate_true_count (useSVM trained : Bool) (conf thresh : ℚ)
    (l : HandLists)
    (hacc : (acceptanceGate useSVM trained conf thresh l).accepted = true) :
    1 ≤ l.fingersIJ.length ∧ l.fingersIJ.length ≤ 6 := by
  rw [acceptanceGate] at hacc
  split at hacc
  · cases hacc
  · rename_i hcount
    push_neg at hcount
    omega

theorem hand_out_cases (h : HandIn) :
    runCheckForHand h = rejectedEmpty ∨
      ∃ l : HandLists, runCheckForHand h =
        acceptanceGate h.handUseSVM h.svmTrained h.svmConf
          h.handSVMConfidenceThresh l := by
  rw [runCheckForHand]
  split
  · exact Or.inl rfl
  · split
    · exact Or.inl rfl
    · split
      · exact Or.inl rfl
      · exact Or.inr ⟨_, rfl⟩

/-- C4: a cluster is accepted (`checkForHand` returns true) only when the
final finger count lies in `[1, 6]`; a count of 0 or above 6 is rejected by
the gate of `src/unnamed/part_000` line 688 before the acceptance result is
produced, whatever the SVM stage would say. -/
theorem accepted_hand_has_one_to_six_fingers (h : HandIn)
    (hacc : (runCheckForHand h).accepted = true) :
    1 ≤ (runCheckForHand h).fingersIJ.length ∧
      (runCheckForHand h).fingersIJ.length ≤ 6 := by
  rcases hand_out_cases h with hcase | ⟨l, hcase⟩
  · rw [hcase] at hacc
    cases hacc
  · rw [hcase] at hacc ⊢
    rw [acceptanceGate_fingersIJ]
    exact acceptanceGate_true_count _ _ _ _ _ hacc

/-- C4 witness: the concrete accepting evaluation has two fingers. -/
theorem accepted_hand_has_one_to_six_fingers_witness :
    (runCheckForHand handInAccept).accepted = true ∧
      1 ≤ (runCheckForHand handInAccept).fingersIJ.length ∧
      (runCheckForHand handInAccept).fingersIJ.length ≤ 6 :=
  ⟨by decide, accepted_hand_has_one_to_six_fingers handInAccept (by decide)⟩

theorem sfAssemble_sync (h : HandIn) (defIJ : IJ) (defXYZ : V3) (bestIdx : ℤ) :
    (sfAssemble h defIJ defXYZ bestIdx).fingersIJ.length =
        (sfAssemble h defIJ defXYZ bestIdx).fingersXYZ.length ∧
      (sfAssemble h defIJ defXYZ bestIdx).defectsIJ.length =
        (sfAssemble h defIJ defXYZ bestIdx).fingersXYZ.length ∧
      (sfAssemble h defIJ defXYZ bestIdx).defectsXYZ.length =
        (sfAssemble h defIJ defXYZ bestIdx).fingersXYZ.length := by
  rw [sfAssemble]
  split
  · exact ⟨rfl, rfl, rfl⟩
  · split
    · exact ⟨rfl, rfl, rfl⟩
    · split
      · exact ⟨rfl, rfl, rfl⟩
      · exact ⟨rfl, rfl, rfl⟩

theorem singleFingerFallback_sync (h : HandIn) :
    (singleFingerFallback h).fingersIJ.length =
        (singleFingerFallback h).fingersXYZ.length ∧
      (singleFingerFallback h).defectsIJ.length =
        (singleFingerFallback h).fingersXYZ.length ∧
      (singleFingerFallback h).defectsXYZ.length =
        (singleFingerFallback h).fingersXYZ.length := by
  rw [singleFingerFallback]
  split
  · exact ⟨rfl, rfl, rfl⟩
  · split
    · exact sfAssemble_sync _ _ _ _
    · exact sfAssemble_sync _ _ _ _

theorem dedupStage_sync (d3 : V3 → V3 → ℚ) (thresh : ℚ) (flt : List Cand) :
    (dedupStage d3 thresh flt).fingersIJ.length =
        (dedupStage d3 thresh flt).fingersXYZ.length ∧
      (dedupStage d3 thresh flt).defectsIJ.length =
        (dedupStage d3 thresh flt).fingersXYZ.length ∧
      (dedupStage d3 thresh flt).defectsXYZ.length =
        (dedupStage d3 thresh flt).fingersXYZ.length := by
  simp [dedupStage]

theorem acceptanceGate_lists (useSVM trained : Bool) (conf thresh : ℚ)
    (l : HandLists) :
    (acceptanceGate useSVM trained conf thresh l).fingersIJ = l.fingersIJ ∧
      (acceptanceGate useSVM trained conf thresh l).fingersXYZ = l.fingersXYZ ∧
      (acceptanceGate useSVM trained conf thresh l).defectsIJ = l.defectsIJ ∧
      (acceptanceGate useSVM trained conf thresh l).defectsXYZ = l.defectsXYZ := by
  rw [acceptanceGate]
  split
  · exact ⟨rfl, rfl, rfl, rfl⟩
  · split
    · split
      · exact ⟨rfl, rfl, rfl, rfl⟩
      · exact ⟨rfl, rfl, rfl, rfl⟩
    · exact ⟨rfl, rfl, rfl, rfl⟩

/-- C10: after any evaluation, accepted or rejected, the four landmark lists
`fingersIJ`, `fingersXYZ`, `defectsIJ`, `defectsXYZ` have the same length,
and `getNumFingers` equals that common length: every path that pushes to or
clears one of the lists ultimately does the same to the others. -/
theorem landmark_lists_synchronized (h : HandIn) :
    (runCheckForHand h).fingersIJ.length = getNumFingers (runCheckForHand h) ∧
      (runCheckForHand h).defectsIJ.length = getNumFingers (runCheckForHand h) ∧
      (runCheckForHand h).defectsXYZ.length = getNumFingers (runCheckForHand h) := by
  rw [getNumFingers, runCheckForHand]
  split
  · exact ⟨rfl, rfl, rfl⟩
  · split
    · exact ⟨rfl, rfl, rfl⟩
    · split
      · exact ⟨rfl, rfl, rfl⟩
      · obtain ⟨e1, e2, e3, e4⟩ := acceptanceGate_lists h.handUseSVM h.svmTrained
          h.svmConf h.handSVMConfidenceThresh
          (if (dedupStage h.dist3 h.fingerDistMin
              (h.cands.filter h.accept)).fingersXYZ.length ≤ 1 then
            singleFingerFallback h
          else dedupStage h.dist3 h.fingerDistMin (h.cands.filter h.accept))
        rw [e1, e2, e3, e4]
        split
        · exact singleFingerFallback_sync h
        · exact dedupStage_sync _ _ _

theorem dedupSkip_eq_false_iff (ti : V3) (i : ℕ) (tj : V3) (j : ℕ) :
    dedupSkip ti i tj j = false ↔
      (v3y ti < v3y tj ∨ (v3y ti = v3y tj ∧ i < j)) := by
  rw [dedupSkip]
  simp only [Bool.or_eq_false_iff, Bool.and_eq_false_iff, decide_eq_false_iff_not,
    not_lt, not_le]
  constructor
  · rintro ⟨h1, h2⟩
    rcases eq_or_lt_of_le h1 with heq | hlt
    · rcases h2 with h2 | h2
      · exact absurd heq h2
      · exact Or.inr ⟨heq, h2⟩
    · exact Or.inl hlt
  · rintro (hlt | ⟨heq, hij⟩)
    · exact ⟨le_of_lt hlt, Or.inl (ne_of_lt hlt)⟩
    · exact ⟨le_of_eq heq, Or.inr hij⟩

theorem dedupInner_lt_iff (d3 : V3 → V3 → ℚ) (thresh : ℚ) (ti : V3) (i : ℕ) :
    ∀ (l : List (ℕ × V3)) (m : Option ℚ), runningMinLt m thresh = false →
      (runningMinLt (dedupInner d3 thresh ti i l m) thresh = true ↔
        ∃ p ∈ l, dedupSkip ti i p.2 p.1 = false ∧ d3 ti p.2 < thresh) := by
  intro l
  induction l with
  | nil =>
    intro m hm
    rw [dedupInner]
    simp [hm]
  | cons hd tl ih =>
    intro m hm
    obtain ⟨j, tj⟩ := hd
    rw [dedupInner]
    by_cases hskip : dedupSkip ti i tj j = true
    · rw [if_pos hskip, ih m hm]
      constructor
      · rintro ⟨p, hp, hps, hd3⟩
        exact ⟨p, List.mem_cons_of_mem _ hp, hps, hd3⟩
      · rintro ⟨p, hp, hps, hd3⟩
        rcases List.mem_cons.mp hp with heq | hp2
        · rw [heq] at hps
          rw [hskip] at hps
          cases hps
        · exact ⟨p, hp2, hps, hd3⟩
    · have hskf : dedupSkip ti i tj j = false := by
        revert hskip
        cases dedupSkip ti i tj j <;> simp
      rw [if_neg hskip]
      by_cases hlt : ltRunningMin (d3 ti tj) m = true
      · rw [if_pos hlt]
        by_cases hth : d3 ti tj < thresh
        · rw [if_pos hth]
          constructor
          · intro _
            exact ⟨(j, tj), List.mem_cons_self _ _, hskf, hth⟩
          · intro _
            simp [runningMinLt, hth]
        · rw [if_neg hth]
          have hm2 : runningMinLt (some (d3 ti tj)) thresh = false := by
            simp [runningMinLt, hth]
          rw [ih _ hm2]
          constructor
          · rintro ⟨p, hp, hps, hd3⟩
            exact ⟨p, List.mem_cons_of_mem _ hp, hps, hd3⟩
          · rintro ⟨p, hp, hps, hd3⟩
            rcases List.mem_cons.mp hp with heq | hp2
            · rw [heq] at hd3
              exact absurd hd3 hth
            · exact ⟨p, hp2, hps, hd3⟩
      · rw [if_neg hlt]
        have hth : ¬ d3 ti tj < thresh := by
          cases m with
          | none => simp [ltRunningMin] at hlt
          | some m0 =>
            simp only [ltRunningMin, decide_eq_true_eq, not_lt] at hlt
            simp only [runningMinLt, decide_eq_false_iff_not, not_lt] at hm
            intro hc
            exact absurd (lt_of_lt_of_le hc (le_trans hm hlt)) (lt_irrefl _)
        rw [ih m hm]
        constructor
        · rintro ⟨p, hp, hps, hd3⟩
          exact ⟨p, List.mem_cons_of_mem _ hp, hps, hd3⟩
        · rintro ⟨p, hp, hps, hd3⟩
          rcases List.mem_cons.mp hp with heq | hp2
          · rw [heq] at hd3
            exact absurd hd3 hth
          · exact ⟨p, hp2, hps, hd3⟩

/-- C8 amended: a candidate is dropped by the deduplication pass exactly when
some other candidate with strictly greater 3D `y` component (or equal `y` and
greater position) lies within `fingerDistMin` of it; the comparison is on the
world-space `y` of the tip samples (`fingerTipsXyz[i][1]`), not on the image
row, and the smaller-`y` member of a too-close pair is the one dropped. -/
theorem dedup_drop_iff (d3 : V3 → V3 → ℚ) (thresh : ℚ) (tips : List V3)
    (i : ℕ) (ti : V3) :
    dedupDrop d3 thresh tips i ti = true ↔
      ∃ j tj, (j, tj) ∈ tips.enum ∧
        (v3y ti < v3y tj ∨ (v3y ti = v3y tj ∧ i < j)) ∧ d3 ti tj < thresh := by
  rw [dedupDrop, dedupInner_lt_iff d3 thresh ti i tips.enum none rfl]
  constructor
  · rintro ⟨⟨j, tj⟩, hp, hps, hd3⟩
    exact ⟨j, tj, hp, (dedupSkip_eq_false_iff ti i tj j).mp hps, hd3⟩
  · rintro ⟨j, tj, hp, hcond, hd3⟩
    exact ⟨(j, tj), hp, (dedupSkip_eq_false_iff ti i tj j).mpr hcond, hd3⟩

/-- C8 counterexample: two candidate tips 0.005 m apart with `fingerDistMin`
= 0.01, the upper one at pixel row 10 with world `y` 1/10, the lower one at
pixel row 20 with world `y` 21/200.  The code keeps the lower-row candidate
(it has the greater world `y`), while the claimed rule - drop on minimum
distance to a strictly smaller row, keeping the upper - keeps the upper
one. -/
theorem dedup_keeps_lower_counterexample :
    dedupFingers dC8 (mkRat 1 100) [candUpper, candLower] = [candLower] ∧
      specDedupKept dC8 (mkRat 1 100) [candUpper, candLower] = [candUpper] ∧
      candUpper ≠ candLower := by decide
